import Mathlib

/-!
# HeartRate-For-VRChat: a shallow embedding of `src/main.rs`

This file embeds the heart-rate relay program in Lean 4 and proves the
specification claims about it.  The embedding follows the Rust source:

* the BLE notification-processing body of `handle_device_connection`
  (decode, clamp, file write, OSC emission) becomes `process_notification`;
* `send_osc` becomes a pure function from a heart-rate value (and an
  explicitly passed ambient wall-clock value, which the source never reads)
  to the OSC bundle it builds and the list of datagrams it sends;
* the device-selection function `find_target_device` becomes a function
  from the list of discovered peripherals (each carrying the fixed outcome
  of its `properties()` query) to a result paired with a flag recording
  whether `stop_scan` was executed before returning;
* one iteration of the inner reconnect loop of `main_loop` becomes
  `innerLoopIter`, which returns the trace of BLE/timer operations the
  iteration performs together with its control-flow outcome.

Machine integers are modelled as `Nat`/`Int` (payload bytes are `Nat`s
below 256; RSSI is an `Int`); the `f32` arithmetic of `send_osc` is
modelled over `ℚ` with the same formulas, since every heart-rate input
0..=255 and both ceilings are exactly representable and the claims compare
the formulas themselves.
-/

namespace HeartRateVRChat

/-- The error enum `AppError` of `main.rs` (payloads of the wrapped library
errors are irrelevant to control flow and omitted). -/
inductive AppError where
  | Btleplug
  | IoError
  | Rosc
  | AdapterNotFound
  | DeviceNotFound
  | CharacteristicNotFound
  | SubscriptionFailed
  deriving DecidableEq

/-- The `Config` struct (fields used by the verified components; device
names are byte strings modelled as `List Char`, UUIDs as `Nat`, the `f32`
ceiling as `ℚ`). -/
structure Config where
  osc_port : Nat
  target_device_names : List (List Char)
  heart_rate_char_uuid : Nat
  heart_rate_service_uuid : Nat
  max_heart_rate_for_percent : ℚ
  scan_duration_secs : Nat
  retry_delay_secs : Nat
  heartbeat_timeout_secs : Nat

/-- The constant `CONFIG` of `main.rs`. -/
def CONFIG : Config where
  osc_port := 9000
  target_device_names :=
    ["Xiaomi Smart Band 9".data, "Xiaomi Smart Band 10".data,
     "HUAWEI".data, "HONOR".data]
  heart_rate_char_uuid := 0x00002a3700001000800000805f9b34fb
  heart_rate_service_uuid := 0x0000180d00001000800000805f9b34fb
  max_heart_rate_for_percent := 200
  scan_duration_secs := 5
  retry_delay_secs := 5
  heartbeat_timeout_secs := 15

/-! ## OSC emitter (`send_osc`) -/

/-- `rosc::OscType` restricted to the variants the program builds. -/
inductive OscValue where
  | bool (b : Bool)
  | float (x : ℚ)
  | int (i : Int)
  deriving DecidableEq

/-- `rosc::OscMessage`. -/
structure OscMessage where
  addr : String
  args : List OscValue
  deriving DecidableEq

/-- `rosc::OscTime`. -/
structure OscTime where
  seconds : Nat
  fractional : Nat
  deriving DecidableEq

/-- `rosc::OscBundle`. -/
structure OscBundle where
  timetag : OscTime
  content : List OscMessage
  deriving DecidableEq

/-- `send_osc` from `main.rs`.  `now` is the ambient wall-clock time the
process could read; the source never reads it, so `now` does not occur in
the body.  Returns the bundle built together with the list of bundles
handed to `socket.send` (one `send` call, hence a singleton list: one
datagram per sample). -/
def send_osc (now : OscTime) (heart_rate : Nat) (config : Config) :
    OscBundle × List OscBundle :=
  let is_active : Bool := decide (0 < heart_rate)
  let hr_for_percent : ℚ := min (heart_rate : ℚ) config.max_heart_rate_for_percent
  let percent : ℚ := hr_for_percent / config.max_heart_rate_for_percent
  let hr_for_percent2 : ℚ := min (heart_rate : ℚ) 240
  let percent2 : ℚ := hr_for_percent2 / 240
  let hr_for_int : Nat := min heart_rate 240
  let bundle : OscBundle :=
    { timetag := { seconds := 0, fractional := 1 }
      content :=
        [ { addr := "/avatar/parameters/hr_connected"
            args := [OscValue.bool is_active] },
          { addr := "/avatar/parameters/isHRActive"
            args := [OscValue.bool is_active] },
          { addr := "/avatar/parameters/hr_percent"
            args := [OscValue.float percent] },
          { addr := "/avatar/parameters/VRCOSC/Heartrate/Normalised"
            args := [OscValue.float percent2] },
          { addr := "/avatar/parameters/HR"
            args := [OscValue.int (hr_for_int : Int)] } ] }
  (bundle, [bundle])

/-! ## Heart-rate codec: the notification-processing body -/

/-- A BLE notification as delivered by the library: characteristic UUID
plus the payload bytes (each a `Nat` below 256 in any real payload). -/
structure Notification where
  uuid : Nat
  value : List Nat
  deriving DecidableEq

/-- Everything one accepted sample produces, in source order:
`raw` is the decoded `heart_rate : u16`, `clamped` is `heart_rate_u8 =
heart_rate.min(255)`, `fileWrite` is the string written to
`HeartRate.txt`, `bundle`/`datagrams` are the OSC emission. -/
structure SampleOut where
  raw : Nat
  clamped : Nat
  fileWrite : String
  bundle : OscBundle
  datagrams : List OscBundle
  deriving DecidableEq

/-- The per-notification body of the streaming loop in
`handle_device_connection` (main.rs lines 362-388): the outer guard
`notification.uuid == config.heart_rate_char_uuid && value.len() >= 2`,
the flags-driven decode with per-branch length re-validation (`continue`
becomes `none`), the clamp to 255, and the two sinks. -/
def process_notification (config : Config) (now : OscTime)
    (n : Notification) : Option SampleOut :=
  if n.uuid = config.heart_rate_char_uuid ∧ 2 ≤ n.value.length then
    let flag := n.value.getD 0 0
    let hr? : Option Nat :=
      if flag % 2 = 0 then
        if n.value.length < 2 then none
        else some (n.value.getD 1 0)
      else
        if n.value.length < 3 then none
        else some (n.value.getD 1 0 + 256 * n.value.getD 2 0)
    match hr? with
    | none => none
    | some heart_rate =>
      let heart_rate_u8 := min heart_rate 255
      let sent := send_osc now heart_rate_u8 config
      some { raw := heart_rate
             clamped := heart_rate_u8
             fileWrite := toString heart_rate_u8
             bundle := sent.1
             datagrams := sent.2 }
  else none

/-! ## Device selector (`find_target_device`) -/

/-- The properties returned by a peripheral's `properties()` query:
advertised local name and RSSI, both optional (mirrors
`btleplug::api::PeripheralProperties` in the fields the program reads). -/
structure PeriphProps where
  local_name : Option (List Char)
  rssi : Option Int
  deriving DecidableEq

/-- Outcome of `p.properties().await`: a library error, `Ok(None)`, or
`Ok(Some props)`. -/
inductive PropsResult where
  | err
  | okNone
  | okSome (props : PeriphProps)
  deriving DecidableEq

/-- A discovered peripheral: its address and the (fixed, per-device)
outcome of querying its properties. -/
structure Periph where
  address : Nat
  props : PropsResult
  deriving DecidableEq

/-- Rust `str::contains`: `containsSub needle hay` is true when `needle`
occurs as a contiguous substring of `hay`. -/
def containsSub (needle : List Char) : List Char → Bool
  | [] => needle.isEmpty
  | c :: rest => needle.isPrefixOf (c :: rest) || containsSub needle rest

/-- The local `SelectionMode` enum of `find_target_device`. -/
inductive SelectionMode where
  | ByName
  | StrongestSignal
  deriving DecidableEq

/-- The pair of running candidates maintained by the scan loop:
`strongest_candidate` and `name_match_candidate`. -/
structure ScanAcc where
  strongest : Option (Periph × Int)
  nameMatch : Option Periph
  deriving DecidableEq

/-- One iteration of the scan loop of `find_target_device` (main.rs lines
217-273): propagate a `properties()` error, skip a peripheral with no
properties, otherwise update the by-name candidate (only while it is
still unset) and the strongest-signal candidate (strict `>`). -/
def scanStep (targets : List (List Char)) (acc : ScanAcc) (p : Periph) :
    Except AppError ScanAcc :=
  match p.props with
  | PropsResult.err => Except.error AppError.Btleplug
  | PropsResult.okNone => Except.ok acc
  | PropsResult.okSome props =>
    let nameMatch :=
      if acc.nameMatch.isNone then
        match props.local_name with
        | some name =>
          if targets.any (fun target => containsSub target name) then some p
          else acc.nameMatch
        | none => acc.nameMatch
      else acc.nameMatch
    let strongest :=
      match props.rssi with
      | some rssi =>
        match acc.strongest with
        | none => some (p, rssi)
        | some (q, best) => if best < rssi then some (p, rssi) else some (q, best)
      | none => acc.strongest
    Except.ok ⟨strongest, nameMatch⟩

/-- The scan loop of `find_target_device` over the whole peripheral list. -/
def scanLoop (targets : List (List Char)) :
    ScanAcc → List Periph → Except AppError ScanAcc
  | acc, [] => Except.ok acc
  | acc, p :: rest =>
    match scanStep targets acc p with
    | Except.error e => Except.error e
    | Except.ok acc2 => scanLoop targets acc2 rest

/-- `find_target_device` from the point where the central adapter has been
acquired and the scan started (main.rs lines 206-311): enumerate the
discovered peripherals, run the scan loop, pick the chosen-mode candidate,
re-query its properties (the `?` there can still propagate an error), and
only on the successful path execute `stop_scan` before returning.  The
second component records whether `stop_scan` was executed before the
return. -/
def find_target_device (peripherals : List Periph) (mode : SelectionMode)
    (targets : List (List Char)) : Except AppError Periph × Bool :=
  if peripherals.isEmpty then
    (Except.error AppError.DeviceNotFound, false)
  else
    match scanLoop targets ⟨none, none⟩ peripherals with
    | Except.error e => (Except.error e, false)
    | Except.ok acc =>
      match (match mode with
             | SelectionMode.ByName => acc.nameMatch
             | SelectionMode.StrongestSignal => acc.strongest.map Prod.fst) with
      | some p =>
        match p.props with
        | PropsResult.err => (Except.error AppError.Btleplug, false)
        | _ => (Except.ok p, true)
      | none => (Except.error AppError.DeviceNotFound, false)

/-- The RSSI reading a peripheral's properties report (`none` when the
properties are unavailable or carry no RSSI). -/
def rssiOf (p : Periph) : Option Int :=
  match p.props with
  | PropsResult.okSome props => props.rssi
  | _ => none

/-- Whether a peripheral's advertised name contains one of the configured
target substrings (the by-name match condition of the scan loop). -/
def nameMatches (targets : List (List Char)) (p : Periph) : Bool :=
  match p.props with
  | PropsResult.okSome props =>
    match props.local_name with
    | some name => targets.any (fun target => containsSub target name)
    | none => false
  | _ => false

/-! ## Connection supervisor (`handle_device_connection` and the inner
loop of `main_loop`) -/

/-- Observable operations one inner-loop iteration performs, in order. -/
inductive Ev where
  | checkIsConnected
  | connectCall
  | discoverServices
  | findCharacteristic
  | subscribeCall
  | consumeStream
  | sleepRetry
  | queryAdapters
  | queryPeripherals
  | presenceCheck (present : Bool)
  deriving DecidableEq

/-- The environment's responses to the fallible steps of
`handle_device_connection`: connect, service discovery, whether the
heart-rate characteristic exists and supports NOTIFY, subscribe,
acquiring the notification stream, and the streaming loop itself (whose
only escaping error is the `io::stdout().flush()?`; timeouts and graceful
closure end it with `Ok`). -/
structure HandleEnv where
  connectRes : Except AppError Unit
  discoverRes : Except AppError Unit
  charFound : Bool
  charNotify : Bool
  subscribeRes : Except AppError Unit
  notifyStreamRes : Except AppError Unit
  streamRes : Except AppError Unit

/-- `handle_device_connection` (main.rs lines 314-399) as a step sequence:
the trace of operations performed and the `Result` returned. -/
def handle_device_connection (env : HandleEnv) :
    List Ev × Except AppError Unit :=
  match env.connectRes with
  | Except.error e => ([Ev.connectCall], Except.error e)
  | Except.ok _ =>
  match env.discoverRes with
  | Except.error e => ([Ev.connectCall, Ev.discoverServices], Except.error e)
  | Except.ok _ =>
  if env.charFound = false then
    ([Ev.connectCall, Ev.discoverServices, Ev.findCharacteristic],
     Except.error AppError.CharacteristicNotFound)
  else if env.charNotify = false then
    ([Ev.connectCall, Ev.discoverServices, Ev.findCharacteristic],
     Except.error AppError.SubscriptionFailed)
  else
  match env.subscribeRes with
  | Except.error e =>
    ([Ev.connectCall, Ev.discoverServices, Ev.findCharacteristic,
      Ev.subscribeCall], Except.error e)
  | Except.ok _ =>
  match env.notifyStreamRes with
  | Except.error e =>
    ([Ev.connectCall, Ev.discoverServices, Ev.findCharacteristic,
      Ev.subscribeCall], Except.error e)
  | Except.ok _ =>
  match env.streamRes with
  | Except.error e =>
    ([Ev.connectCall, Ev.discoverServices, Ev.findCharacteristic,
      Ev.subscribeCall, Ev.consumeStream], Except.error e)
  | Except.ok _ =>
    ([Ev.connectCall, Ev.discoverServices, Ev.findCharacteristic,
      Ev.subscribeCall, Ev.consumeStream], Except.ok ())

/-- An adapter handle as used in the reconnect-vs-rescan check: the
outcome of its `peripherals()` query, as a list of peripheral addresses. -/
structure AdapterH where
  peripheralAddrs : Except AppError (List Nat)

/-- Environment responses for one iteration of the inner loop of
`main_loop`: the `is_connected` query, the responses
`handle_device_connection` would see, and the `manager.adapters()` query
of the reconnect-vs-rescan check. -/
structure InnerEnv where
  isConnRes : Except AppError Bool
  handleEnv : HandleEnv
  adaptersRes : Except AppError (List AdapterH)

/-- Control-flow outcome of one inner-loop iteration: `terminate e`
propagates `e` out of `main_loop`; `rescan` is the `break` back to the
outer scan loop (a fresh candidate will be acquired); `reconnect`
continues the inner loop with the same device handle. -/
inductive InnerOutcome where
  | terminate (e : AppError)
  | rescan
  | reconnect
  deriving DecidableEq

/-- One iteration of the inner loop of `main_loop` (main.rs lines
424-456): check `is_connected` (its `?` propagates), run
`handle_device_connection` only when not connected (its error is caught
and logged), sleep the retry delay, then query the adapter list (`?`
propagates, first adapter required) and its peripherals (`?` propagates);
`break` to rescanning exactly when every listed address differs from the
device's. -/
def innerLoopIter (env : InnerEnv) (devAddr : Nat) : List Ev × InnerOutcome :=
  match env.isConnRes with
  | Except.error e => ([Ev.checkIsConnected], InnerOutcome.terminate e)
  | Except.ok connected =>
    let htrace : List Ev :=
      if connected then [] else (handle_device_connection env.handleEnv).1
    let pre : List Ev :=
      Ev.checkIsConnected :: htrace ++ [Ev.sleepRetry, Ev.queryAdapters]
    match env.adaptersRes with
    | Except.error e => (pre, InnerOutcome.terminate e)
    | Except.ok adapters =>
      match adapters.head? with
      | none => (pre, InnerOutcome.terminate AppError.AdapterNotFound)
      | some a =>
        match a.peripheralAddrs with
        | Except.error e =>
          (pre ++ [Ev.queryPeripherals], InnerOutcome.terminate e)
        | Except.ok addrs =>
          let allAbsent := addrs.all (fun x => decide (x ≠ devAddr))
          if allAbsent then
            (pre ++ [Ev.queryPeripherals, Ev.presenceCheck false],
             InnerOutcome.rescan)
          else
            (pre ++ [Ev.queryPeripherals, Ev.presenceCheck true],
             InnerOutcome.reconnect)

/-- The error, if any, produced by the reconnect-vs-rescan adapter check
itself (adapter-list query failure, no adapter, or peripheral-list query
failure). -/
def adapterCheckError (env : InnerEnv) : Option AppError :=
  match env.adaptersRes with
  | Except.error e => some e
  | Except.ok adapters =>
    match adapters.head? with
    | none => some AppError.AdapterNotFound
    | some a =>
      match a.peripheralAddrs with
      | Except.error e => some e
      | Except.ok _ => none

/-! ## Helper functions used to state and prove the selector lemmas -/

/-- The strongest-signal-candidate update of one scan-loop iteration,
expressed through `rssiOf`. -/
def stepStrong (acc : Option (Periph × Int)) (p : Periph) :
    Option (Periph × Int) :=
  match rssiOf p with
  | none => acc
  | some rssi =>
    match acc with
    | none => some (p, rssi)
    | some (q, best) => if best < rssi then some (p, rssi) else some (q, best)

/-- The by-name-candidate update of one scan-loop iteration, expressed
through `nameMatches`. -/
def stepName (cur : Option Periph) (targets : List (List Char))
    (p : Periph) : Option Periph :=
  match cur with
  | some q => some q
  | none => if nameMatches targets p then some p else none

/-- The strongest-signal candidate after folding the scan-loop update over
a peripheral list. -/
def strongestFrom (acc : Option (Periph × Int)) :
    List Periph → Option (Periph × Int)
  | [] => acc
  | p :: rest => strongestFrom (stepStrong acc p) rest

/-- The by-name candidate after folding the scan-loop update over a
peripheral list. -/
def nameFrom (cur : Option Periph) (targets : List (List Char)) :
    List Periph → Option Periph
  | [] => cur
  | p :: rest => nameFrom (stepName cur targets p) targets rest

/-- Whether an `Except` result is a success. -/
def exceptIsOk (r : Except AppError Periph) : Bool :=
  match r with
  | Except.ok _ => true
  | Except.error _ => false

/-! ## Lemmas about the scan loop -/

theorem scanStep_eq (targets : List (List Char)) (acc : ScanAcc) (p : Periph)
    (h : p.props ≠ PropsResult.err) :
    scanStep targets acc p =
      Except.ok ⟨stepStrong acc.strongest p, stepName acc.nameMatch targets p⟩ := by
  obtain ⟨addr, pr⟩ := p
  obtain ⟨s, nm⟩ := acc
  cases pr with
  | err => exact absurd rfl h
  | okNone => cases nm <;> rfl
  | okSome props =>
    obtain ⟨ln, rs⟩ := props
    cases nm <;> cases ln <;> cases rs <;> rfl

theorem scanLoop_eq (targets : List (List Char)) (ps : List Periph) :
    ∀ acc : ScanAcc, (∀ q ∈ ps, q.props ≠ PropsResult.err) →
      scanLoop targets acc ps =
        Except.ok ⟨strongestFrom acc.strongest ps,
                   nameFrom acc.nameMatch targets ps⟩ := by
  induction ps with
  | nil => intro acc _; rfl
  | cons p rest ih =>
    intro acc h
    have hp : p.props ≠ PropsResult.err := h p (List.mem_cons_self p rest)
    simp only [scanLoop, scanStep_eq targets acc p hp, strongestFrom, nameFrom]
    exact ih _ (fun q hq => h q (List.mem_cons_of_mem p hq))

theorem nameFrom_some (targets : List (List Char)) (q : Periph) :
    ∀ ps : List Periph, nameFrom (some q) targets ps = some q := by
  intro ps
  induction ps with
  | nil => rfl
  | cons p rest ih => simpa [nameFrom, stepName] using ih

theorem nameFrom_none (targets : List (List Char)) :
    ∀ ps : List Periph,
      nameFrom none targets ps =
        (ps.filter (fun q => nameMatches targets q)).head? := by
  intro ps
  induction ps with
  | nil => rfl
  | cons p rest ih =>
    by_cases hm : nameMatches targets p
    · simp [nameFrom, stepName, hm, nameFrom_some]
    · simp [nameFrom, stepName, hm, ih]

theorem stepStrong_rssi_none (acc : Option (Periph × Int)) (p : Periph)
    (h : rssiOf p = none) : stepStrong acc p = acc := by
  simp [stepStrong, h]

theorem stepStrong_rssi_some_none (p : Periph) (r : Int)
    (h : rssiOf p = some r) : stepStrong none p = some (p, r) := by
  simp [stepStrong, h]

theorem stepStrong_rssi_some_some (p : Periph) (r : Int) (q : Periph)
    (s : Int) (h : rssiOf p = some r) :
    stepStrong (some (q, s)) p =
      if s < r then some (p, r) else some (q, s) := by
  simp [stepStrong, h]

theorem strongestFrom_spec (ps : List Periph) :
    ∀ (acc : Option (Periph × Int)) (p : Periph) (r : Int),
      strongestFrom acc ps = some (p, r) →
      (acc = some (p, r) ∧ ∀ q ∈ ps, ∀ s : Int, rssiOf q = some s → s ≤ r) ∨
      (∃ l1 l2, ps = l1 ++ p :: l2 ∧ rssiOf p = some r ∧
        (∀ q ∈ l1, ∀ s : Int, rssiOf q = some s → s < r) ∧
        (∀ q ∈ l2, ∀ s : Int, rssiOf q = some s → s ≤ r) ∧
        (∀ (q : Periph) (s : Int), acc = some (q, s) → s < r)) := by
  induction ps with
  | nil =>
    intro acc p r h
    left
    exact ⟨h, by intro q hq; simp at hq⟩
  | cons p0 rest ih =>
    intro acc p r h
    rw [strongestFrom] at h
    rcases ih (stepStrong acc p0) p r h with
      ⟨hacc2, hrest⟩ | ⟨l1, l2, hps, hr, hl1, hl2, hacc2⟩
    · -- the final candidate was already the accumulator entering `rest`
      cases h0 : rssiOf p0 with
      | none =>
        rw [stepStrong_rssi_none acc p0 h0] at hacc2
        left
        refine ⟨hacc2, ?_⟩
        intro q hq s hs
        rcases List.mem_cons.mp hq with rfl | hq'
        · rw [h0] at hs; exact absurd hs (by simp)
        · exact hrest q hq' s hs
      | some r0 =>
        cases hacc : acc with
        | none =>
          rw [hacc, stepStrong_rssi_some_none p0 r0 h0] at hacc2
          simp only [Option.some.injEq, Prod.mk.injEq] at hacc2
          obtain ⟨rfl, rfl⟩ := hacc2
          right
          refine ⟨[], rest, by simp, h0, by simp, hrest, ?_⟩
          intro q s hq
          exact absurd hq (by simp)
        | some qs =>
          obtain ⟨q0, s0⟩ := qs
          rw [hacc, stepStrong_rssi_some_some p0 r0 q0 s0 h0] at hacc2
          by_cases hlt : s0 < r0
          · rw [if_pos hlt] at hacc2
            simp only [Option.some.injEq, Prod.mk.injEq] at hacc2
            obtain ⟨rfl, rfl⟩ := hacc2
            right
            refine ⟨[], rest, by simp, h0, by simp, hrest, ?_⟩
            intro q s hq
            simp only [Option.some.injEq, Prod.mk.injEq] at hq
            obtain ⟨rfl, rfl⟩ := hq
            exact hlt
          · rw [if_neg hlt] at hacc2
            left
            refine ⟨hacc ▸ hacc2, ?_⟩
            intro q hq s hs
            rcases List.mem_cons.mp hq with rfl | hq'
            · rw [h0] at hs
              simp only [Option.some.injEq] at hs
              subst hs
              simp only [Option.some.injEq, Prod.mk.injEq] at hacc2
              obtain ⟨rfl, rfl⟩ := hacc2
              exact le_of_not_lt hlt
            · exact hrest q hq' s hs
    · -- the final candidate came from `rest`
      right
      refine ⟨p0 :: l1, l2, by rw [hps]; rfl, hr, ?_, hl2, ?_⟩
      · intro q hq s hs
        rcases List.mem_cons.mp hq with rfl | hq'
        · -- q = p0 : show its rssi is strictly below r
          cases hacc : acc with
          | none =>
            refine hacc2 q s ?_
            rw [hacc, stepStrong_rssi_some_none q s hs]
          | some qs =>
            obtain ⟨q0, s0⟩ := qs
            rw [hacc] at hacc2
            by_cases hlt : s0 < s
            · refine hacc2 q s ?_
              rw [stepStrong_rssi_some_some q s q0 s0 hs, if_pos hlt]
            · have hs0 : s0 < r := by
                refine hacc2 q0 s0 ?_
                rw [stepStrong_rssi_some_some q s q0 s0 hs, if_neg hlt]
              exact lt_of_le_of_lt (le_of_not_lt hlt) hs0
        · exact hl1 q hq' s hs
      · intro q s hq
        cases h0 : rssiOf p0 with
        | none =>
          refine hacc2 q s ?_
          rw [stepStrong_rssi_none acc p0 h0, hq]
        | some r0 =>
          rw [hq] at hacc2
          by_cases hlt : s < r0
          · have hr0 : r0 < r := by
              refine hacc2 p0 r0 ?_
              rw [stepStrong_rssi_some_some p0 r0 q s h0, if_pos hlt]
            exact lt_trans hlt hr0
          · refine hacc2 q s ?_
            rw [stepStrong_rssi_some_some p0 r0 q s h0, if_neg hlt]

theorem strongestFrom_all_none (ps : List Periph) :
    ∀ acc : Option (Periph × Int), (∀ q ∈ ps, rssiOf q = none) →
      strongestFrom acc ps = acc := by
  induction ps with
  | nil => intro acc _; rfl
  | cons p rest ih =>
    intro acc h
    rw [strongestFrom, stepStrong_rssi_none acc p (h p (List.mem_cons_self p rest))]
    exact ih acc (fun q hq => h q (List.mem_cons_of_mem p hq))

theorem find_target_device_eq (ps : List Periph) (mode : SelectionMode)
    (targets : List (List Char)) (hne : ps ≠ [])
    (hok : ∀ q ∈ ps, q.props ≠ PropsResult.err) :
    find_target_device ps mode targets =
      match (match mode with
             | SelectionMode.ByName => nameFrom none targets ps
             | SelectionMode.StrongestSignal =>
               (strongestFrom none ps).map Prod.fst) with
      | some p =>
        match p.props with
        | PropsResult.err => (Except.error AppError.Btleplug, false)
        | _ => (Except.ok p, true)
      | none => (Except.error AppError.DeviceNotFound, false) := by
  have hemp : ps.isEmpty = false := by
    cases ps with
    | nil => exact absurd rfl hne
    | cons _ _ => rfl
  simp only [find_target_device, hemp, Bool.false_eq_true, if_false,
    scanLoop_eq targets ps ⟨none, none⟩ hok]

theorem selected_strongest (ps : List Periph) (targets : List (List Char))
    (p : Periph) (hok : ∀ q ∈ ps, q.props ≠ PropsResult.err)
    (hsel : (find_target_device ps SelectionMode.StrongestSignal targets).1 =
      Except.ok p) :
    ∃ r : Int, strongestFrom none ps = some (p, r) := by
  have hne : ps ≠ [] := by
    rintro rfl
    simp [find_target_device] at hsel
  rw [find_target_device_eq ps SelectionMode.StrongestSignal targets hne hok]
    at hsel
  cases hsf : strongestFrom none ps with
  | none => rw [hsf] at hsel; simp at hsel
  | some pr =>
    obtain ⟨p', r⟩ := pr
    rw [hsf] at hsel
    simp only [Option.map_some'] at hsel
    cases hp' : p'.props with
    | err => rw [hp'] at hsel; simp at hsel
    | okNone =>
      rw [hp'] at hsel
      have hpp : p' = p := by simpa using hsel
      obtain rfl := hpp
      exact ⟨r, rfl⟩
    | okSome props =>
      rw [hp'] at hsel
      have hpp : p' = p := by simpa using hsel
      obtain rfl := hpp
      exact ⟨r, rfl⟩

/-- **C6.** For every peripheral list in which exactly one peripheral's
advertised name contains a configured target substring (more generally:
whenever the first name-matching peripheral is `p`), by-name mode selects
that peripheral regardless of signal-strength ordering — the by-name
candidate is the first match encountered and is never overwritten by a
later match. -/
theorem by_name_selects_first_match (ps : List Periph)
    (targets : List (List Char)) (p : Periph)
    (hok : ∀ q ∈ ps, q.props ≠ PropsResult.err)
    (hfirst : (ps.filter (fun q => nameMatches targets q)).head? = some p) :
    (find_target_device ps SelectionMode.ByName targets).1 = Except.ok p := by
  have hmem : p ∈ ps.filter (fun q => nameMatches targets q) := by
    cases hf : ps.filter (fun q => nameMatches targets q) with
    | nil => rw [hf] at hfirst; exact absurd hfirst (by simp)
    | cons a l =>
      rw [hf] at hfirst
      simp only [List.head?_cons, Option.some.injEq] at hfirst
      exact List.mem_cons.mpr (Or.inl hfirst.symm)
  have hpps : p ∈ ps := (List.mem_filter.mp hmem).1
  have hne : ps ≠ [] := by rintro rfl; simp at hpps
  rw [find_target_device_eq ps SelectionMode.ByName targets hne hok]
  simp only [nameFrom_none targets ps, hfirst]
  cases hp : p.props with
  | err => exact absurd hp (hok p hpps)
  | okNone => rfl
  | okSome props => rfl

/-- C6 witness: a two-element list whose only name match is the second,
weaker-signal peripheral; by-name mode selects it. -/
theorem by_name_selects_first_match_witness :
    (find_target_device
      [⟨1, PropsResult.okSome ⟨some "xx".data, some 50⟩⟩,
       ⟨2, PropsResult.okSome ⟨some "zab".data, some (-90)⟩⟩]
      SelectionMode.ByName ["ab".data]).1 =
      Except.ok ⟨2, PropsResult.okSome ⟨some "zab".data, some (-90)⟩⟩ :=
  by_name_selects_first_match _ _ _ (by decide) (by decide)

/-- **C7.** For every peripheral list, strongest-signal mode selects the
peripheral with the numerically highest signal-strength reading; among
equal-strength peripherals the one encountered first is kept (everything
strictly before the selected peripheral has strictly smaller RSSI, since
the comparison is strict `>`). -/
theorem strongest_selects_max (ps : List Periph) (targets : List (List Char))
    (p : Periph) (hok : ∀ q ∈ ps, q.props ≠ PropsResult.err)
    (hsel : (find_target_device ps SelectionMode.StrongestSignal targets).1 =
      Except.ok p) :
    ∃ r : Int, rssiOf p = some r ∧
      (∀ q ∈ ps, ∀ s : Int, rssiOf q = some s → s ≤ r) ∧
      ∃ l1 l2, ps = l1 ++ p :: l2 ∧
        ∀ q ∈ l1, ∀ s : Int, rssiOf q = some s → s < r := by
  obtain ⟨r, hsf⟩ := selected_strongest ps targets p hok hsel
  rcases strongestFrom_spec ps none p r hsf with ⟨hacc, -⟩ | ⟨l1, l2, hps, hr, hl1, hl2, -⟩
  · exact absurd hacc (by simp)
  · refine ⟨r, hr, ?_, l1, l2, hps, hl1⟩
    intro q hq s hs
    rw [hps] at hq
    rcases List.mem_append.mp hq with hq1 | hq2
    · exact le_of_lt (hl1 q hq1 s hs)
    · rcases List.mem_cons.mp hq2 with rfl | hq3
      · rw [hr] at hs
        simp only [Option.some.injEq] at hs
        exact le_of_eq hs.symm
      · exact hl2 q hq3 s hs

/-- C7 witness: three peripherals with RSSI -60, -40, -40; the first
peripheral reading -40 is selected. -/
theorem strongest_selects_max_witness :
    ∃ r : Int,
      rssiOf ⟨2, PropsResult.okSome ⟨none, some (-40)⟩⟩ = some r ∧
      (∀ q ∈ [(⟨1, PropsResult.okSome ⟨none, some (-60)⟩⟩ : Periph),
              ⟨2, PropsResult.okSome ⟨none, some (-40)⟩⟩,
              ⟨3, PropsResult.okSome ⟨none, some (-40)⟩⟩],
        ∀ s : Int, rssiOf q = some s → s ≤ r) ∧
      ∃ l1 l2,
        [(⟨1, PropsResult.okSome ⟨none, some (-60)⟩⟩ : Periph),
         ⟨2, PropsResult.okSome ⟨none, some (-40)⟩⟩,
         ⟨3, PropsResult.okSome ⟨none, some (-40)⟩⟩] = l1 ++
          (⟨2, PropsResult.okSome ⟨none, some (-40)⟩⟩ : Periph) :: l2 ∧
        ∀ q ∈ l1, ∀ s : Int, rssiOf q = some s → s < r :=
  strongest_selects_max _ [] _ (by decide) rfl

/-- **C3, counterexample.** With zero peripherals discovered the selector
returns the no-device-found error, yet `stop_scan` was not executed
before the return: the claim that scanning has been stopped before every
return is false on the failure paths. -/
theorem scan_not_stopped_on_failure :
    (find_target_device [] SelectionMode.StrongestSignal []).1 =
      Except.error AppError.DeviceNotFound ∧
    (find_target_device [] SelectionMode.StrongestSignal []).2 = false :=
  ⟨rfl, rfl⟩

/-- **C3, amended.** Scanning is stopped before the return exactly on the
successful path; every failure return (no peripherals discovered,
chosen-mode candidate absent, or a property-query error) leaves the scan
running. -/
theorem scan_stop_iff_success (ps : List Periph) (mode : SelectionMode)
    (targets : List (List Char)) :
    (find_target_device ps mode targets).2 =
      exceptIsOk (find_target_device ps mode targets).1 := by
  unfold find_target_device
  repeat' split
  all_goals rfl

/-- **C10.** In strongest-signal mode a peripheral reporting no RSSI can
never become the selected candidate; and when every discovered peripheral
lacks an RSSI reading, selection fails with the no-device-found error
even though peripherals were discovered. -/
theorem no_rssi_never_selected (ps : List Periph) (targets : List (List Char))
    (hok : ∀ q ∈ ps, q.props ≠ PropsResult.err) :
    (∀ p : Periph,
      (find_target_device ps SelectionMode.StrongestSignal targets).1 =
        Except.ok p → rssiOf p ≠ none) ∧
    (ps ≠ [] → (∀ q ∈ ps, rssiOf q = none) →
      (find_target_device ps SelectionMode.StrongestSignal targets).1 =
        Except.error AppError.DeviceNotFound) := by
  constructor
  · intro p hsel
    obtain ⟨r, hsf⟩ := selected_strongest ps targets p hok hsel
    rcases strongestFrom_spec ps none p r hsf with ⟨hacc, -⟩ | ⟨_, _, _, hr, -⟩
    · exact absurd hacc (by simp)
    · rw [hr]; simp
  · intro hne hnone
    rw [find_target_device_eq ps SelectionMode.StrongestSignal targets hne hok,
      strongestFrom_all_none ps none hnone]
    rfl

/-- C10 witness: two discovered peripherals, neither reporting an RSSI;
strongest-signal selection fails with the no-device-found error. -/
theorem no_rssi_never_selected_witness :
    (∀ p : Periph,
      (find_target_device
        [⟨1, PropsResult.okSome ⟨some "a".data, none⟩⟩,
         ⟨2, PropsResult.okNone⟩]
        SelectionMode.StrongestSignal []).1 = Except.ok p → rssiOf p ≠ none) ∧
    ([(⟨1, PropsResult.okSome ⟨some "a".data, none⟩⟩ : Periph),
      ⟨2, PropsResult.okNone⟩] ≠ [] →
      (∀ q ∈ [(⟨1, PropsResult.okSome ⟨some "a".data, none⟩⟩ : Periph),
              ⟨2, PropsResult.okNone⟩], rssiOf q = none) →
      (find_target_device
        [⟨1, PropsResult.okSome ⟨some "a".data, none⟩⟩,
         ⟨2, PropsResult.okNone⟩]
        SelectionMode.StrongestSignal []).1 =
        Except.error AppError.DeviceNotFound) :=
  no_rssi_never_selected _ [] (by decide)

/-- **C1.** For every notification accepted for decoding (matching UUID):
with flags bit 0 clear and at least 2 payload bytes the decoded heart rate
is byte 1; with bit 0 set and at least 3 bytes it is the little-endian
16-bit value of bytes 1 and 2; a payload shorter than its declared width
is rejected with no sample emitted; and every emitted sample is clamped to
255 before reaching the file sink and the OSC emitter. -/
theorem decode_and_clamp (config : Config) (now : OscTime) (n : Notification)
    (hu : n.uuid = config.heart_rate_char_uuid) :
    (n.value.getD 0 0 % 2 = 0 → 2 ≤ n.value.length →
      (process_notification config now n).map SampleOut.raw =
        some (n.value.getD 1 0)) ∧
    (n.value.getD 0 0 % 2 = 1 → 3 ≤ n.value.length →
      (process_notification config now n).map SampleOut.raw =
        some (n.value.getD 1 0 + 256 * n.value.getD 2 0)) ∧
    (n.value.length < 2 ∨ (n.value.getD 0 0 % 2 = 1 ∧ n.value.length < 3) →
      process_notification config now n = none) ∧
    (∀ out : SampleOut, process_notification config now n = some out →
      out.clamped = min out.raw 255 ∧
      out.fileWrite = toString out.clamped ∧
      out.bundle = (send_osc now out.clamped config).1 ∧
      out.datagrams = (send_osc now out.clamped config).2) := by
  refine ⟨?_, ?_, ?_, ?_⟩
  · intro hf hlen
    have h2 : ¬ n.value.length < 2 := by omega
    simp only [List.getD_eq_getElem?_getD] at hf
    simp [process_notification, hu, hlen, hf, h2]
  · intro hf hlen
    have h3 : ¬ n.value.length < 3 := by omega
    have h2 : 2 ≤ n.value.length := by omega
    simp only [List.getD_eq_getElem?_getD] at hf
    simp [process_notification, hu, hf, h2, h3]
  · intro hc
    rcases hc with hlen | ⟨hf, hlen⟩
    · have h2 : ¬ 2 ≤ n.value.length := by omega
      simp [process_notification, h2]
    · by_cases h2 : 2 ≤ n.value.length
      · simp only [List.getD_eq_getElem?_getD] at hf
        simp [process_notification, hu, h2, hf, hlen]
      · simp [process_notification, h2]
  · intro out hout
    simp only [process_notification] at hout
    split at hout
    · split at hout
      · exact absurd hout (by simp)
      · simp only [Option.some.injEq] at hout
        subst hout
        exact ⟨rfl, rfl, rfl, rfl⟩
    · exact absurd hout (by simp)

/-- C1 witness: a 16-bit payload `[1, 44, 1]` decodes to `44 + 256 = 300`. -/
theorem decode_and_clamp_witness :
    (process_notification CONFIG ⟨0, 1⟩
        ⟨CONFIG.heart_rate_char_uuid, [1, 44, 1]⟩).map SampleOut.raw =
      some (([1, 44, 1] : List Nat).getD 1 0 +
        256 * ([1, 44, 1] : List Nat).getD 2 0) :=
  (decode_and_clamp CONFIG ⟨0, 1⟩ ⟨CONFIG.heart_rate_char_uuid, [1, 44, 1]⟩
    rfl).2.1 (by decide) (by decide)

/-- **C2.** For every heart rate in 0..=255 the OSC emitter builds one
bundle of exactly the five addressed messages, with `hr_connected` and
`isHRActive` the boolean `heart_rate != 0`, `hr_percent` the value
`min(heart_rate,200)/200`, `Normalised` the value `min(heart_rate,240)/240`,
and `HR` the integer `min(heart_rate,240)`; the bundle is sent as one
datagram per sample. -/
theorem osc_bundle_spec (now : OscTime) (heart_rate : Nat)
    (h : heart_rate ≤ 255) :
    (send_osc now heart_rate CONFIG).1.content =
      [ { addr := "/avatar/parameters/hr_connected"
          args := [OscValue.bool (decide (heart_rate ≠ 0))] },
        { addr := "/avatar/parameters/isHRActive"
          args := [OscValue.bool (decide (heart_rate ≠ 0))] },
        { addr := "/avatar/parameters/hr_percent"
          args := [OscValue.float (min (heart_rate : ℚ) 200 / 200)] },
        { addr := "/avatar/parameters/VRCOSC/Heartrate/Normalised"
          args := [OscValue.float (min (heart_rate : ℚ) 240 / 240)] },
        { addr := "/avatar/parameters/HR"
          args := [OscValue.int (min (heart_rate : Int) 240)] } ] ∧
    (send_osc now heart_rate CONFIG).2 = [(send_osc now heart_rate CONFIG).1] := by
  constructor
  · simp only [send_osc, CONFIG, List.cons.injEq, OscMessage.mk.injEq,
      OscValue.bool.injEq, OscValue.float.injEq, OscValue.int.injEq, and_true,
      true_and]
    refine ⟨?_, ?_, ?_⟩
    · simp [Nat.pos_iff_ne_zero]
    · simp [Nat.pos_iff_ne_zero]
    · push_cast
      simp
  · rfl

/-- C2 witness at heart rate 72. -/
theorem osc_bundle_spec_witness :
    (send_osc ⟨0, 1⟩ 72 CONFIG).1.content =
      [ { addr := "/avatar/parameters/hr_connected"
          args := [OscValue.bool (decide ((72 : Nat) ≠ 0))] },
        { addr := "/avatar/parameters/isHRActive"
          args := [OscValue.bool (decide ((72 : Nat) ≠ 0))] },
        { addr := "/avatar/parameters/hr_percent"
          args := [OscValue.float (min ((72 : Nat) : ℚ) 200 / 200)] },
        { addr := "/avatar/parameters/VRCOSC/Heartrate/Normalised"
          args := [OscValue.float (min ((72 : Nat) : ℚ) 240 / 240)] },
        { addr := "/avatar/parameters/HR"
          args := [OscValue.int (min ((72 : Nat) : Int) 240)] } ] ∧
    (send_osc ⟨0, 1⟩ 72 CONFIG).2 = [(send_osc ⟨0, 1⟩ 72 CONFIG).1] :=
  osc_bundle_spec ⟨0, 1⟩ 72 (by decide)

/-- **C9.** For every heart rate in 0..=255 the emitter's output does not
depend on the ambient wall-clock time — two calls with the same value
produce identical bundles and datagrams — and the bundle's timetag is the
fixed immediate marker (seconds 0, fractional 1). -/
theorem osc_idempotent (heart_rate : Nat) (h : heart_rate ≤ 255)
    (t1 t2 : OscTime) :
    send_osc t1 heart_rate CONFIG = send_osc t2 heart_rate CONFIG ∧
    (send_osc t1 heart_rate CONFIG).1.timetag = ⟨0, 1⟩ :=
  ⟨rfl, rfl⟩

/-- C9 witness at heart rate 140 with two different clock readings. -/
theorem osc_idempotent_witness :
    send_osc ⟨0, 1⟩ 140 CONFIG = send_osc ⟨123, 456⟩ 140 CONFIG ∧
    (send_osc ⟨0, 1⟩ 140 CONFIG).1.timetag = ⟨0, 1⟩ :=
  osc_idempotent 140 (by decide) ⟨0, 1⟩ ⟨123, 456⟩

theorem innerLoopIter_trace_connected (env : InnerEnv) (devAddr : Nat)
    (h : env.isConnRes = Except.ok true) :
    ∃ suffix : List Ev,
      (innerLoopIter env devAddr).1 =
        [Ev.checkIsConnected, Ev.sleepRetry, Ev.queryAdapters] ++ suffix ∧
      (suffix = [] ∨ suffix = [Ev.queryPeripherals] ∨
       suffix = [Ev.queryPeripherals, Ev.presenceCheck false] ∨
       suffix = [Ev.queryPeripherals, Ev.presenceCheck true]) := by
  cases henv : env.adaptersRes with
  | error e => exact ⟨[], by simp [innerLoopIter, h, henv], Or.inl rfl⟩
  | ok adapters =>
    cases hh : adapters.head? with
    | none => exact ⟨[], by simp [innerLoopIter, h, henv, hh], Or.inl rfl⟩
    | some a =>
      cases hp : a.peripheralAddrs with
      | error e =>
        exact ⟨[Ev.queryPeripherals],
          by simp [innerLoopIter, h, henv, hh, hp], Or.inr (Or.inl rfl)⟩
      | ok addrs =>
        by_cases hcond : ∀ x ∈ addrs, ¬ x = devAddr
        · exact ⟨[Ev.queryPeripherals, Ev.presenceCheck false],
            by simp [innerLoopIter, h, henv, hh, hp]; rw [if_pos hcond],
            Or.inr (Or.inr (Or.inl rfl))⟩
        · exact ⟨[Ev.queryPeripherals, Ev.presenceCheck true],
            by simp [innerLoopIter, h, henv, hh, hp]; rw [if_neg hcond],
            Or.inr (Or.inr (Or.inr rfl))⟩

/-- **C4, counterexample.** An iteration in which the device already
reports connected and every environment query succeeds: the iteration
performs no service discovery and no notification consumption at all, so
the claim that the supervisor proceeds straight to streaming setup in
that iteration is false. -/
theorem connected_skip_counterexample :
    (innerLoopIter
      { isConnRes := Except.ok true
        handleEnv := { connectRes := Except.ok (), discoverRes := Except.ok ()
                       charFound := true, charNotify := true
                       subscribeRes := Except.ok ()
                       notifyStreamRes := Except.ok ()
                       streamRes := Except.ok () }
        adaptersRes := Except.ok [{ peripheralAddrs := Except.ok [7] }] }
      7).2 = InnerOutcome.reconnect ∧
    Ev.discoverServices ∉
      (innerLoopIter
        { isConnRes := Except.ok true
          handleEnv := { connectRes := Except.ok (), discoverRes := Except.ok ()
                         charFound := true, charNotify := true
                         subscribeRes := Except.ok ()
                         notifyStreamRes := Except.ok ()
                         streamRes := Except.ok () }
          adaptersRes := Except.ok [{ peripheralAddrs := Except.ok [7] }] }
        7).1 :=
  ⟨rfl, by decide⟩

/-- **C4, amended.** In the Connecting step, if the device already reports
connected, the supervisor skips the entire connection-and-streaming
routine for that iteration — no connect call, no service discovery, no
characteristic lookup, no subscription and no notification consumption —
and proceeds directly to the retry delay and the adapter presence
re-check. -/
theorem connected_skips_whole_session (env : InnerEnv) (devAddr : Nat)
    (h : env.isConnRes = Except.ok true) :
    Ev.connectCall ∉ (innerLoopIter env devAddr).1 ∧
    Ev.discoverServices ∉ (innerLoopIter env devAddr).1 ∧
    Ev.findCharacteristic ∉ (innerLoopIter env devAddr).1 ∧
    Ev.subscribeCall ∉ (innerLoopIter env devAddr).1 ∧
    Ev.consumeStream ∉ (innerLoopIter env devAddr).1 ∧
    Ev.sleepRetry ∈ (innerLoopIter env devAddr).1 := by
  obtain ⟨suffix, htr, hsuf⟩ := innerLoopIter_trace_connected env devAddr h
  rcases hsuf with rfl | rfl | rfl | rfl <;> rw [htr] <;> decide

/-- C4 witness: a connected-device iteration whose adapter query fails. -/
theorem connected_skips_whole_session_witness :
    Ev.connectCall ∉ (innerLoopIter
      { isConnRes := Except.ok true
        handleEnv := { connectRes := Except.ok (), discoverRes := Except.ok ()
                       charFound := true, charNotify := true
                       subscribeRes := Except.ok ()
                       notifyStreamRes := Except.ok ()
                       streamRes := Except.ok () }
        adaptersRes := Except.error AppError.Btleplug } 3).1 ∧
    Ev.discoverServices ∉ (innerLoopIter
      { isConnRes := Except.ok true
        handleEnv := { connectRes := Except.ok (), discoverRes := Except.ok ()
                       charFound := true, charNotify := true
                       subscribeRes := Except.ok ()
                       notifyStreamRes := Except.ok ()
                       streamRes := Except.ok () }
        adaptersRes := Except.error AppError.Btleplug } 3).1 ∧
    Ev.findCharacteristic ∉ (innerLoopIter
      { isConnRes := Except.ok true
        handleEnv := { connectRes := Except.ok (), discoverRes := Except.ok ()
                       charFound := true, charNotify := true
                       subscribeRes := Except.ok ()
                       notifyStreamRes := Except.ok ()
                       streamRes := Except.ok () }
        adaptersRes := Except.error AppError.Btleplug } 3).1 ∧
    Ev.subscribeCall ∉ (innerLoopIter
      { isConnRes := Except.ok true
        handleEnv := { connectRes := Except.ok (), discoverRes := Except.ok ()
                       charFound := true, charNotify := true
                       subscribeRes := Except.ok ()
                       notifyStreamRes := Except.ok ()
                       streamRes := Except.ok () }
        adaptersRes := Except.error AppError.Btleplug } 3).1 ∧
    Ev.consumeStream ∉ (innerLoopIter
      { isConnRes := Except.ok true
        handleEnv := { connectRes := Except.ok (), discoverRes := Except.ok ()
                       charFound := true, charNotify := true
                       subscribeRes := Except.ok ()
                       notifyStreamRes := Except.ok ()
                       streamRes := Except.ok () }
        adaptersRes := Except.error AppError.Btleplug } 3).1 ∧
    Ev.sleepRetry ∈ (innerLoopIter
      { isConnRes := Except.ok true
        handleEnv := { connectRes := Except.ok (), discoverRes := Except.ok ()
                       charFound := true, charNotify := true
                       subscribeRes := Except.ok ()
                       notifyStreamRes := Except.ok ()
                       streamRes := Except.ok () }
        adaptersRes := Except.error AppError.Btleplug } 3).1 :=
  connected_skips_whole_session _ 3 rfl

/-- **C5, counterexample.** A failing `is_connected` query at the top of
the inner loop terminates the run even though the reconnect-vs-rescan
adapter check itself would have succeeded: the claim that only an
adapter-list query failure terminates the process is false. -/
theorem is_connected_error_terminates :
    (innerLoopIter
      { isConnRes := Except.error AppError.Btleplug
        handleEnv := { connectRes := Except.ok (), discoverRes := Except.ok ()
                       charFound := true, charNotify := true
                       subscribeRes := Except.ok ()
                       notifyStreamRes := Except.ok ()
                       streamRes := Except.ok () }
        adaptersRes := Except.ok [{ peripheralAddrs := Except.ok [7] }] }
      7).2 = InnerOutcome.terminate AppError.Btleplug ∧
    adapterCheckError
      { isConnRes := Except.error AppError.Btleplug
        handleEnv := { connectRes := Except.ok (), discoverRes := Except.ok ()
                       charFound := true, charNotify := true
                       subscribeRes := Except.ok ()
                       notifyStreamRes := Except.ok ()
                       streamRes := Except.ok () }
        adaptersRes := Except.ok [{ peripheralAddrs := Except.ok [7] }] } =
      none :=
  ⟨rfl, rfl⟩

/-- **C5, amended.** The only errors that terminate the process from the
inner loop are a failure of the `is_connected` query at the top of the
loop and a failure of the reconnect-vs-rescan adapter check (adapter-list
query, missing adapter, or peripheral-list query); every other device- and
stream-level error — connect, service discovery, characteristic lookup,
subscription, stream errors — is caught, logged and converted into a
delayed retry. -/
theorem terminate_only_from_connectivity_queries (env : InnerEnv)
    (devAddr : Nat) (e : AppError)
    (h : (innerLoopIter env devAddr).2 = InnerOutcome.terminate e) :
    env.isConnRes = Except.error e ∨ adapterCheckError env = some e := by
  cases hconn : env.isConnRes with
  | error e0 =>
    have hout : (innerLoopIter env devAddr).2 = InnerOutcome.terminate e0 := by
      simp [innerLoopIter, hconn]
    have he : InnerOutcome.terminate e0 = InnerOutcome.terminate e :=
      hout.symm.trans h
    simp only [InnerOutcome.terminate.injEq] at he
    exact Or.inl (by rw [he])
  | ok connected =>
    right
    cases henv : env.adaptersRes with
    | error e1 =>
      have hout : (innerLoopIter env devAddr).2 = InnerOutcome.terminate e1 := by
        simp [innerLoopIter, hconn, henv]
      have he : InnerOutcome.terminate e1 = InnerOutcome.terminate e :=
        hout.symm.trans h
      simp only [InnerOutcome.terminate.injEq] at he
      simp [adapterCheckError, henv, he]
    | ok adapters =>
      cases hh : adapters.head? with
      | none =>
        have hout : (innerLoopIter env devAddr).2 =
            InnerOutcome.terminate AppError.AdapterNotFound := by
          simp [innerLoopIter, hconn, henv, hh]
        have he : InnerOutcome.terminate AppError.AdapterNotFound =
            InnerOutcome.terminate e := hout.symm.trans h
        simp only [InnerOutcome.terminate.injEq] at he
        simp [adapterCheckError, henv, hh, he]
      | some a =>
        cases hp : a.peripheralAddrs with
        | error e2 =>
          have hout : (innerLoopIter env devAddr).2 =
              InnerOutcome.terminate e2 := by
            simp [innerLoopIter, hconn, henv, hh, hp]
          have he : InnerOutcome.terminate e2 = InnerOutcome.terminate e :=
            hout.symm.trans h
          simp only [InnerOutcome.terminate.injEq] at he
          simp [adapterCheckError, henv, hh, hp, he]
        | ok addrs =>
          by_cases hcond : ∀ x ∈ addrs, ¬ x = devAddr
          · have hout : (innerLoopIter env devAddr).2 = InnerOutcome.rescan := by
              simp [innerLoopIter, hconn, henv, hh, hp]
              rw [if_pos hcond]
            rw [hout] at h
            exact absurd h (by simp)
          · have hout : (innerLoopIter env devAddr).2 =
                InnerOutcome.reconnect := by
              simp [innerLoopIter, hconn, henv, hh, hp]
              rw [if_neg hcond]
            rw [hout] at h
            exact absurd h (by simp)

/-- C5 witness: an adapter-list query failure during the check. -/
theorem terminate_only_from_connectivity_queries_witness :
    ({ isConnRes := Except.ok false
       handleEnv := { connectRes := Except.error AppError.Btleplug
                      discoverRes := Except.ok ()
                      charFound := true, charNotify := true
                      subscribeRes := Except.ok ()
                      notifyStreamRes := Except.ok ()
                      streamRes := Except.ok () }
       adaptersRes := Except.error AppError.IoError } : InnerEnv).isConnRes =
      Except.error AppError.IoError ∨
    adapterCheckError
      { isConnRes := Except.ok false
        handleEnv := { connectRes := Except.error AppError.Btleplug
                       discoverRes := Except.ok ()
                       charFound := true, charNotify := true
                       subscribeRes := Except.ok ()
                       notifyStreamRes := Except.ok ()
                       streamRes := Except.ok () }
        adaptersRes := Except.error AppError.IoError } =
      some AppError.IoError :=
  terminate_only_from_connectivity_queries _ 7 AppError.IoError rfl

/-- **C8.** After leaving streaming for any reason the supervisor waits
the retry delay and then checks whether the device's address is present in
the adapter's current peripheral list: if present the iteration re-enters
connecting with the same device handle (`reconnect`), if absent it
returns to scanning for a fresh candidate (`rescan`); the trace ends with
the sleep, the adapter queries and the presence check, in that order. -/
theorem reconnect_vs_rescan (env : InnerEnv) (devAddr : Nat) (c : Bool)
    (a : AdapterH) (rest : List AdapterH) (addrs : List Nat)
    (h1 : env.isConnRes = Except.ok c)
    (h2 : env.adaptersRes = Except.ok (a :: rest))
    (h3 : a.peripheralAddrs = Except.ok addrs) :
    ((devAddr ∈ addrs →
        (innerLoopIter env devAddr).2 = InnerOutcome.reconnect) ∧
     (devAddr ∉ addrs →
        (innerLoopIter env devAddr).2 = InnerOutcome.rescan)) ∧
    (∃ t0 : List Ev, (innerLoopIter env devAddr).1 =
      t0 ++ [Ev.sleepRetry, Ev.queryAdapters, Ev.queryPeripherals,
             Ev.presenceCheck (decide (devAddr ∈ addrs))]) := by
  by_cases hm : devAddr ∈ addrs
  · have hcond : ¬ ∀ x ∈ addrs, ¬ x = devAddr := fun hf => hf devAddr hm rfl
    have hout : (innerLoopIter env devAddr).2 = InnerOutcome.reconnect := by
      simp [innerLoopIter, h1, h2, h3]
      rw [if_neg hcond]
    have htr : (innerLoopIter env devAddr).1 =
        (Ev.checkIsConnected ::
          (if c = true then [] else (handle_device_connection env.handleEnv).1)) ++
        [Ev.sleepRetry, Ev.queryAdapters, Ev.queryPeripherals,
         Ev.presenceCheck true] := by
      simp [innerLoopIter, h1, h2, h3]
      rw [if_neg hcond]
    have hdec : decide (devAddr ∈ addrs) = true := by simp [hm]
    refine ⟨⟨fun _ => hout, fun hne => absurd hm hne⟩,
      Ev.checkIsConnected ::
        (if c = true then [] else (handle_device_connection env.handleEnv).1),
      ?_⟩
    rw [hdec]
    exact htr
  · have hcond : ∀ x ∈ addrs, ¬ x = devAddr := fun x hx hxd => hm (hxd ▸ hx)
    have hout : (innerLoopIter env devAddr).2 = InnerOutcome.rescan := by
      simp [innerLoopIter, h1, h2, h3]
      rw [if_pos hcond]
    have htr : (innerLoopIter env devAddr).1 =
        (Ev.checkIsConnected ::
          (if c = true then [] else (handle_device_connection env.handleEnv).1)) ++
        [Ev.sleepRetry, Ev.queryAdapters, Ev.queryPeripherals,
         Ev.presenceCheck false] := by
      simp [innerLoopIter, h1, h2, h3]
      rw [if_pos hcond]
    have hdec : decide (devAddr ∈ addrs) = false := by simp [hm]
    refine ⟨⟨fun hmem => absurd hmem hm, fun _ => hout⟩,
      Ev.checkIsConnected ::
        (if c = true then [] else (handle_device_connection env.handleEnv).1),
      ?_⟩
    rw [hdec]
    exact htr

/-- C8 witness: device address 7 present in the adapter list `[7, 9]`. -/
theorem reconnect_vs_rescan_witness :
    (((7 : Nat) ∈ [(7 : Nat), 9] →
        (innerLoopIter
          { isConnRes := Except.ok false
            handleEnv := { connectRes := Except.error AppError.Btleplug
                           discoverRes := Except.ok ()
                           charFound := true, charNotify := true
                           subscribeRes := Except.ok ()
                           notifyStreamRes := Except.ok ()
                           streamRes := Except.ok () }
            adaptersRes :=
              Except.ok [{ peripheralAddrs := Except.ok [7, 9] }] }
          7).2 = InnerOutcome.reconnect) ∧
     ((7 : Nat) ∉ [(7 : Nat), 9] →
        (innerLoopIter
          { isConnRes := Except.ok false
            handleEnv := { connectRes := Except.error AppError.Btleplug
                           discoverRes := Except.ok ()
                           charFound := true, charNotify := true
                           subscribeRes := Except.ok ()
                           notifyStreamRes := Except.ok ()
                           streamRes := Except.ok () }
            adaptersRes :=
              Except.ok [{ peripheralAddrs := Except.ok [7, 9] }] }
          7).2 = InnerOutcome.rescan)) ∧
    (∃ t0 : List Ev,
      (innerLoopIter
        { isConnRes := Except.ok false
          handleEnv := { connectRes := Except.error AppError.Btleplug
                         discoverRes := Except.ok ()
                         charFound := true, charNotify := true
                         subscribeRes := Except.ok ()
                         notifyStreamRes := Except.ok ()
                         streamRes := Except.ok () }
          adaptersRes :=
            Except.ok [{ peripheralAddrs := Except.ok [7, 9] }] }
        7).1 =
      t0 ++ [Ev.sleepRetry, Ev.queryAdapters, Ev.queryPeripherals,
             Ev.presenceCheck (decide ((7 : Nat) ∈ [(7 : Nat), 9]))]) :=
  reconnect_vs_rescan _ 7 false _ [] [7, 9] rfl rfl rfl

end HeartRateVRChat
